import Mathlib

/-!
Verification of the conversation/messaging consistency scheme, the
advertisement contact invariant and the role-based admin gate of the
classifieds site.

Identifiers (uuids in the store) are modelled as naturals carrying the
total order the trigger compares them with; timestamps as a logical
clock; nullable columns as `Option`.
-/

namespace Site

abbrev UserId := Nat
abbrev ConvId := Nat
abbrev MsgId := Nat
abbrev AdId := Nat

/-- A row of the `conversations` table. -/
structure Conversation where
  id : ConvId
  user1_id : UserId
  user2_id : UserId
  advertisement_id : Option AdId
  last_message_id : Option MsgId
  user1_unread_count : Nat
  user2_unread_count : Nat
  updated_at : Nat
  deriving Repr, DecidableEq

/-- A row of the `messages` table. -/
structure Message where
  id : MsgId
  sender_id : UserId
  receiver_id : UserId
  conversation_id : Option ConvId
  advertisement_id : Option AdId
  content : String
  is_read : Bool
  deriving Repr, DecidableEq

/-- The messaging part of the database, with fresh-id counters and a
logical clock standing in for `gen_random_uuid()` and `now()`. -/
structure MsgDB where
  conversations : List Conversation
  messages : List Message
  nextConvId : Nat
  nextMsgId : Nat
  now : Nat
  deriving Repr

def initDB : MsgDB := ⟨[], [], 0, 0, 0⟩

/-- SQL equality on a nullable column: a comparison involving NULL is
not TRUE, so it never selects a row by itself. -/
def sqlEqNullable (a b : Option AdId) : Bool :=
  match a, b with
  | some x, some y => x == y
  | _, _ => false

/-- The WHERE clause of the conversation lookup in
`set_message_conversation`: `user1_id = user1 AND user2_id = user2 AND
(advertisement_id = NEW.advertisement_id OR (advertisement_id IS NULL
AND NEW.advertisement_id IS NULL))`. -/
def convMatches (c : Conversation) (user1 user2 : UserId) (ad : Option AdId) : Bool :=
  c.user1_id == user1 && c.user2_id == user2 &&
    (sqlEqNullable c.advertisement_id ad || (c.advertisement_id.isNone && ad.isNone))

/-- `IF NEW.sender_id < NEW.receiver_id THEN (sender, receiver) ELSE
(receiver, sender)`: the canonical (smaller-id, larger-id) pair. -/
def canonPair (sender receiver : UserId) : UserId × UserId :=
  if sender < receiver then (sender, receiver) else (receiver, sender)

/-- `SELECT id INTO conv_id FROM conversations WHERE ...`. -/
def lookupConv (db : MsgDB) (user1 user2 : UserId) (ad : Option AdId) : Option Conversation :=
  db.conversations.find? (fun c => convMatches c user1 user2 ad)

/-- The row inserted when no conversation matches: both unread
counters take their column default 0. -/
def newConv (db : MsgDB) (user1 user2 : UserId) (ad : Option AdId) : Conversation :=
  { id := db.nextConvId, user1_id := user1, user2_id := user2,
    advertisement_id := ad, last_message_id := none,
    user1_unread_count := 0, user2_unread_count := 0, updated_at := db.now }

/-- Find-or-create step of the trigger: the resolved conversation and
the database after a possible INSERT INTO conversations. -/
def resolveConv (db : MsgDB) (user1 user2 : UserId) (ad : Option AdId) :
    Conversation × MsgDB :=
  match lookupConv db user1 user2 ad with
  | some c => (c, db)
  | none =>
      (newConv db user1 user2 ad,
       { db with conversations := db.conversations ++ [newConv db user1 user2 ad],
                 nextConvId := db.nextConvId + 1 })

/-- The `UPDATE conversations SET ... WHERE id = conv_id` of the
trigger: last message, timestamp, and the CASE expressions on the two
unread counters, comparing the canonical locals against
`NEW.receiver_id`. -/
def updateConvMeta (convId : ConvId) (msgId : MsgId) (now : Nat)
    (user1 user2 receiver : UserId) (c : Conversation) : Conversation :=
  if c.id == convId then
    { c with
      last_message_id := some msgId,
      updated_at := now,
      user1_unread_count :=
        if user1 == receiver then c.user1_unread_count + 1 else c.user1_unread_count,
      user2_unread_count :=
        if user2 == receiver then c.user2_unread_count + 1 else c.user2_unread_count }
  else c

/-- The BEFORE INSERT trigger function: canonicalize the pair,
find-or-create the conversation, overwrite `NEW.conversation_id`, and
update the conversation metadata. Returns the updated database and
the NEW row as it will be stored. -/
def set_message_conversation (db : MsgDB) (m : Message) : MsgDB × Message :=
  let u := canonPair m.sender_id m.receiver_id
  let r := resolveConv db u.1 u.2 m.advertisement_id
  let stored := { m with conversation_id := some r.1.id }
  ({ r.2 with
     conversations :=
       r.2.conversations.map (updateConvMeta r.1.id m.id db.now u.1 u.2 m.receiver_id) },
   stored)

/-- The fields a client supplies on `INSERT INTO messages`; a caller
may or may not supply a `conversation_id` of its own. -/
structure MsgInput where
  sender_id : UserId
  receiver_id : UserId
  conversation_id : Option ConvId
  advertisement_id : Option AdId
  content : String
  deriving Repr, DecidableEq

/-- The NEW row as it enters the trigger: defaults applied
(fresh id, `is_read` false). -/
def mkNewMsg (db : MsgDB) (inp : MsgInput) : Message :=
  { id := db.nextMsgId, sender_id := inp.sender_id, receiver_id := inp.receiver_id,
    conversation_id := inp.conversation_id, advertisement_id := inp.advertisement_id,
    content := inp.content, is_read := false }

/-- One `INSERT INTO messages`: run the trigger, store the returned
NEW row, advance the fresh-id counter and the clock. -/
def insertMessage (db : MsgDB) (inp : MsgInput) : MsgDB :=
  let p := set_message_conversation db (mkNewMsg db inp)
  { p.1 with messages := p.1.messages ++ [p.2],
             nextMsgId := db.nextMsgId + 1, now := db.now + 1 }

/-- The column triple of the conversations UNIQUE key. -/
def convKey (c : Conversation) : UserId × UserId × Option AdId :=
  (c.user1_id, c.user2_id, c.advertisement_id)

/-- The conversation a fresh insert resolves to (found or created). -/
def resolvedConv (db : MsgDB) (inp : MsgInput) : Conversation :=
  (resolveConv db (canonPair inp.sender_id inp.receiver_id).1
    (canonPair inp.sender_id inp.receiver_id).2 inp.advertisement_id).1

/-- `markMessagesAsRead` of the messaging modal: one UPDATE flipping
`is_read` on the unread messages of the conversation addressed to the
current user, then — when the conversation is found in the loaded
list — a second UPDATE zeroing that user's counter slot, chosen by
`user1_id === user.id`. -/
def markMessagesAsRead (db : MsgDB) (conversationId : ConvId) (uid : UserId) : MsgDB :=
  let msgs := db.messages.map (fun m =>
    if m.conversation_id == some conversationId && m.receiver_id == uid && m.is_read == false
    then { m with is_read := true } else m)
  match db.conversations.find? (fun c => c.id == conversationId) with
  | none => { db with messages := msgs }
  | some conv =>
      let isUser1 := conv.user1_id == uid
      { db with
        messages := msgs,
        conversations := db.conversations.map (fun c =>
          if c.id == conversationId then
            if isUser1 then { c with user1_unread_count := 0 }
            else { c with user2_unread_count := 0 }
          else c) }

def greetingMessage : String := "Привіт! Мене цікавить ваше оголошення."

/-- `startConversation` of the messaging modal: reuse any loaded
conversation whose pair is {current user, recipient} — the predicate
ignores the advertisement — else insert the fixed greeting message
carrying the advertisement. Returns the database and the selected
conversation id. -/
def startConversation (convs : List Conversation) (db : MsgDB)
    (uid recipientId : UserId) (advertisementId : Option AdId) :
    MsgDB × Option ConvId :=
  match convs.find? (fun c =>
      (c.user1_id == uid && c.user2_id == recipientId) ||
      (c.user2_id == uid && c.user1_id == recipientId)) with
  | some c => (db, some c.id)
  | none =>
      let p := set_message_conversation db (mkNewMsg db
        { sender_id := uid, receiver_id := recipientId, conversation_id := none,
          advertisement_id := advertisementId, content := greetingMessage })
      ({ p.1 with messages := p.1.messages ++ [p.2],
                  nextMsgId := db.nextMsgId + 1, now := db.now + 1 },
       p.2.conversation_id)

/-- A row of the `advertisements` table. -/
structure Advertisement where
  id : AdId
  user_id : UserId
  category : String
  subcategory : String
  title : String
  description : String
  images : List String
  discord_contact : Option String
  telegram_contact : Option String
  price : Option Int
  is_vip : Bool
  deriving Repr, DecidableEq

/-- The table CHECK constraint `check_at_least_one_contact`:
`discord_contact IS NOT NULL OR telegram_contact IS NOT NULL`. -/
def check_at_least_one_contact (a : Advertisement) : Bool :=
  a.discord_contact.isSome || a.telegram_contact.isSome

structure AdStore where
  ads : List Advertisement
  nextAdId : Nat
  deriving Repr

/-- `INSERT INTO advertisements`: the persistent CHECK constraint is
evaluated on every insert, whatever the write path. -/
def insertAdvertisement (s : AdStore) (a : Advertisement) : Except String AdStore :=
  if check_at_least_one_contact a then
    Except.ok { s with ads := s.ads ++ [a] }
  else
    Except.error "new row violates check constraint check_at_least_one_contact"

/-- The row assembled by `create_advertisement` from its parameters. -/
def newAdvertisement (s : AdStore) (p_user_id : UserId)
    (p_category p_subcategory p_title p_description : String)
    (p_images : List String) (p_discord p_telegram : Option String)
    (p_is_vip : Bool) (p_price : Option Int) : Advertisement :=
  { id := s.nextAdId, user_id := p_user_id, category := p_category,
    subcategory := p_subcategory, title := p_title, description := p_description,
    images := p_images, discord_contact := p_discord, telegram_contact := p_telegram,
    price := p_price, is_vip := p_is_vip }

/-- The RPC `create_advertisement`: reject when both contacts are
NULL, otherwise insert the row (which re-checks the constraint). -/
def create_advertisement (s : AdStore) (p_user_id : UserId)
    (p_category p_subcategory p_title p_description : String)
    (p_images : List String) (p_discord p_telegram : Option String)
    (p_is_vip : Bool) (p_price : Option Int) :
    Except String (AdStore × Advertisement) :=
  if p_discord.isNone && p_telegram.isNone then
    Except.error "At least one contact (Discord or Telegram) is required"
  else
    match insertAdvertisement { s with nextAdId := s.nextAdId + 1 }
        (newAdvertisement s p_user_id p_category p_subcategory p_title p_description
          p_images p_discord p_telegram p_is_vip p_price) with
    | Except.ok s2 =>
        Except.ok (s2, newAdvertisement s p_user_id p_category p_subcategory p_title
          p_description p_images p_discord p_telegram p_is_vip p_price)
    | Except.error e => Except.error e

/-- A row of the `users` table (the fields the admin panel touches). -/
structure SiteUser where
  id : UserId
  nickname : String
  role : String
  is_banned : Bool
  deriving Repr, DecidableEq

/-- The `updateData` computed by `handleUserAction` for one target
row: ban sets the flag, unban clears it, a role action with a new role
sets the role, anything else updates nothing. -/
def userActionUpdate (action : String) (newRole : Option String) (u : SiteUser) : SiteUser :=
  if action == "ban" then { u with is_banned := true }
  else if action == "unban" then { u with is_banned := false }
  else if action == "role" then
    match newRole with
    | some r => { u with role := r }
    | none => u
  else u

/-- The user-action buttons the admin panel renders and enables for
one target row: the two role buttons only for an admin actor on a
non-admin target (each disabled when the target already holds that
role), and the ban/unban button only for a non-admin target. -/
def availableUserActions (actorRole : String) (target : SiteUser) :
    List (String × Option String) :=
  (if actorRole == "admin" && target.role != "admin" then
    (if target.role == "vip" then [] else [("role", some "vip")]) ++
    (if target.role == "moderator" then [] else [("role", some "moderator")])
  else []) ++
  (if target.role != "admin" then
    [if target.is_banned then ("unban", none) else ("ban", none)]
  else [])

/-- A user action invoked through the admin panel: only actions whose
button is rendered and enabled for the target row reach
`handleUserAction`'s UPDATE. -/
def panelUserAction (actorRole : String) (users : List SiteUser)
    (targetId : UserId) (action : String) (newRole : Option String) : List SiteUser :=
  match users.find? (fun u => u.id == targetId) with
  | none => users
  | some t =>
      if (action, newRole) ∈ availableUserActions actorRole t then
        users.map (fun u => if u.id == targetId then userActionUpdate action newRole u else u)
      else users

/-- The `details` jsonb payload attached to a log entry. -/
inductive LogDetails where
  | userAction (action : String) (newRole : Option String) (target_nickname : Option String)
  | adAction (advertisement_id : AdId) (advertisement_title : Option String)
      (advertisement_author : Option String)
  deriving Repr, DecidableEq

/-- A row of the `admin_logs` table. -/
structure LogEntry where
  admin_id : Option UserId
  action : String
  target_user_id : Option UserId
  details : LogDetails
  deriving Repr, DecidableEq

/-- `logAction`: append an audit row; a failing insert is caught, only
a console diagnostic is emitted and the log is left as it was. -/
def logAction (logs : List LogEntry) (adminId : Option UserId) (action : String)
    (targetUserId : Option UserId) (details : LogDetails) (logFails : Bool) :
    List LogEntry :=
  if logFails then logs
  else logs ++ [{ admin_id := adminId, action := action,
                  target_user_id := targetUserId, details := details }]

/-- The admin-visible state: users, advertisements and the audit log. -/
structure AdminState where
  users : List SiteUser
  ads : List Advertisement
  logs : List LogEntry
  deriving Repr

/-- What a handler reports back: the state it left behind and whether
the action surfaced as a success toast. -/
structure ActionResult where
  state : AdminState
  success : Bool
  deriving Repr

/-- `handleUserAction`: apply the update to the target row, then log
`action` (suffixed `_to_<role>` for role changes) with actor, target
and a structured payload; a log failure is swallowed and the action
still reports success. -/
def handleUserAction (st : AdminState) (actorId targetId : UserId)
    (action : String) (newRole : Option String) (logFails : Bool) : ActionResult :=
  let users2 := st.users.map (fun u =>
    if u.id == targetId then userActionUpdate action newRole u else u)
  let label := action ++ (match newRole with | some r => "_to_" ++ r | none => "")
  let targetNick := (st.users.find? (fun u => u.id == targetId)).map (fun u => u.nickname)
  let logs2 := logAction st.logs (some actorId) label (some targetId)
    (LogDetails.userAction action newRole targetNick) logFails
  { state := { st with users := users2, logs := logs2 }, success := true }

/-- `handleDeleteAd`: delete the advertisement row, then log
`delete_advertisement` against the ad's owner with the ad's id, title
and author nickname; a log failure is swallowed. -/
def handleDeleteAd (st : AdminState) (actorId : UserId) (adId : AdId)
    (logFails : Bool) : ActionResult :=
  let adToDelete := st.ads.find? (fun a => a.id == adId)
  let ads2 := st.ads.filter (fun a => !(a.id == adId))
  let author := (adToDelete.bind (fun a => st.users.find? (fun u => u.id == a.user_id))).map
    (fun u => u.nickname)
  let logs2 := logAction st.logs (some actorId) "delete_advertisement"
    (adToDelete.map (fun a => a.user_id))
    (LogDetails.adAction adId (adToDelete.map (fun a => a.title)) author) logFails
  { state := { st with ads := ads2, logs := logs2 }, success := true }

/-- `handlePromoteAd`: toggle the VIP flag of the advertisement, then
log `promote_advertisement` or `demote_advertisement` against the ad's
owner; a log failure is swallowed. -/
def handlePromoteAd (st : AdminState) (actorId : UserId) (adId : AdId)
    (isVip : Bool) (logFails : Bool) : ActionResult :=
  let adToPromote := st.ads.find? (fun a => a.id == adId)
  let ads2 := st.ads.map (fun a => if a.id == adId then { a with is_vip := !isVip } else a)
  let label := if isVip then "demote_advertisement" else "promote_advertisement"
  let author := (adToPromote.bind (fun a => st.users.find? (fun u => u.id == a.user_id))).map
    (fun u => u.nickname)
  let logs2 := logAction st.logs (some actorId) label
    (adToPromote.map (fun a => a.user_id))
    (LogDetails.adAction adId (adToPromote.map (fun a => a.title)) author) logFails
  { state := { st with ads := ads2, logs := logs2 }, success := true }

/-- Modelled from the spec: `hasPermission` lives in the client auth
library (`@/lib/auth`), which is not part of the sources here; per the
spec's access rule it holds exactly when the user's role is one of the
listed roles. -/
def hasPermission (u : SiteUser) (roles : List String) : Bool :=
  roles.contains u.role

/-- The admin panel entry gate: `!user || !hasPermission(user,
['admin','moderator'])` redirects away, so access is granted exactly
when `hasPermission` holds for these two roles. -/
def adminPanelAccess (u : SiteUser) : Bool :=
  hasPermission u ["admin", "moderator"]

/-- `fetchData` fetches the audit log, and the panel renders the logs
tab, only under `user.role === 'admin'`. -/
def fetchesAdminLogs (u : SiteUser) : Bool :=
  u.role == "admin"

/-! ## Basic lemmas about the trigger's lookup and update -/

theorem sqlEq_null_safe (x y : Option AdId) :
    (sqlEqNullable x y || (x.isNone && y.isNone)) = (x == y) := by
  cases x <;> cases y <;> simp [sqlEqNullable]

theorem convMatches_eq (c : Conversation) (u1 u2 : UserId) (ad : Option AdId) :
    convMatches c u1 u2 ad =
      (c.user1_id == u1 && c.user2_id == u2 && c.advertisement_id == ad) := by
  unfold convMatches
  rw [sqlEq_null_safe]

theorem convMatches_iff (c : Conversation) (u1 u2 : UserId) (ad : Option AdId) :
    convMatches c u1 u2 ad = true ↔ convKey c = (u1, u2, ad) := by
  rw [convMatches_eq]
  simp [convKey, Prod.ext_iff, and_assoc]

theorem canonPair_le (s r : UserId) : (canonPair s r).1 ≤ (canonPair s r).2 := by
  unfold canonPair
  by_cases h : s < r
  · simp only [if_pos h]
    exact Nat.le_of_lt h
  · simp only [if_neg h]
    exact Nat.le_of_not_lt h

theorem canonPair_cases (s r : UserId) :
    ((canonPair s r).1 = s ∧ (canonPair s r).2 = r) ∨
    ((canonPair s r).1 = r ∧ (canonPair s r).2 = s) := by
  unfold canonPair
  split
  · exact Or.inl ⟨rfl, rfl⟩
  · exact Or.inr ⟨rfl, rfl⟩

theorem updateConvMeta_fields (cid : ConvId) (mid : MsgId) (now : Nat)
    (u1 u2 rcv : UserId) (c : Conversation) :
    (updateConvMeta cid mid now u1 u2 rcv c).user1_id = c.user1_id ∧
    (updateConvMeta cid mid now u1 u2 rcv c).user2_id = c.user2_id ∧
    (updateConvMeta cid mid now u1 u2 rcv c).advertisement_id = c.advertisement_id ∧
    (updateConvMeta cid mid now u1 u2 rcv c).id = c.id := by
  unfold updateConvMeta
  split <;> exact ⟨rfl, rfl, rfl, rfl⟩

theorem updateConvMeta_key (cid : ConvId) (mid : MsgId) (now : Nat)
    (u1 u2 rcv : UserId) (c : Conversation) :
    convKey (updateConvMeta cid mid now u1 u2 rcv c) = convKey c := by
  unfold updateConvMeta convKey
  split <;> rfl

theorem resolveConv_fst (db : MsgDB) (u1 u2 : UserId) (ad : Option AdId) :
    (resolveConv db u1 u2 ad).1.user1_id = u1 ∧
    (resolveConv db u1 u2 ad).1.user2_id = u2 ∧
    (resolveConv db u1 u2 ad).1.advertisement_id = ad := by
  unfold resolveConv
  cases h : lookupConv db u1 u2 ad with
  | none => exact ⟨rfl, rfl, rfl⟩
  | some c =>
      have hc := List.find?_some h
      have := (convMatches_iff c u1 u2 ad).mp hc
      simp only [convKey, Prod.ext_iff] at this
      exact ⟨this.1, this.2.1, this.2.2⟩

theorem resolveConv_mem (db : MsgDB) (u1 u2 : UserId) (ad : Option AdId) :
    (resolveConv db u1 u2 ad).1 ∈ (resolveConv db u1 u2 ad).2.conversations := by
  unfold resolveConv
  cases h : lookupConv db u1 u2 ad with
  | none => simp
  | some c => exact List.mem_of_find?_eq_some h

/-! ## The conversations-table invariant maintained by the trigger -/

/-- Standing invariant of the conversations table: pairs are stored in
canonical order, ids are fresh and distinct, and the UNIQUE key
(user1_id, user2_id, advertisement_id) never repeats. -/
structure ConvInv (db : MsgDB) : Prop where
  canon : ∀ c ∈ db.conversations, c.user1_id ≤ c.user2_id
  idBound : ∀ c ∈ db.conversations, c.id < db.nextConvId
  idsDistinct : db.conversations.Pairwise (fun a b => a.id ≠ b.id)
  keysDistinct : db.conversations.Pairwise (fun a b => convKey a ≠ convKey b)

theorem ConvInv_initDB : ConvInv initDB := by
  constructor <;> simp [initDB]

theorem ConvInv_resolve (db : MsgDB) (u1 u2 : UserId) (ad : Option AdId)
    (hle : u1 ≤ u2) (h : ConvInv db) : ConvInv (resolveConv db u1 u2 ad).2 := by
  unfold resolveConv
  cases hl : lookupConv db u1 u2 ad with
  | some c => exact h
  | none =>
      have hall : ∀ c ∈ db.conversations, ¬ (convMatches c u1 u2 ad = true) :=
        List.find?_eq_none.mp hl
      have hkeys : ∀ c ∈ db.conversations, convKey c ≠ (u1, u2, ad) := by
        intro c hc he
        exact hall c hc ((convMatches_iff c u1 u2 ad).mpr he)
      constructor
      · intro c hc
        rcases List.mem_append.mp hc with h1 | h1
        · exact h.canon c h1
        · rw [List.mem_singleton.mp h1]
          exact hle
      · intro c hc
        rcases List.mem_append.mp hc with h1 | h1
        · exact Nat.lt_succ_of_lt (h.idBound c h1)
        · rw [List.mem_singleton.mp h1]
          exact Nat.lt_succ_self _
      · refine List.pairwise_append.mpr ⟨h.idsDistinct, List.pairwise_singleton _ _, ?_⟩
        intro a ha b hb
        rw [List.mem_singleton.mp hb]
        have hlt := h.idBound a ha
        show a.id ≠ (newConv db u1 u2 ad).id
        have hid : (newConv db u1 u2 ad).id = db.nextConvId := rfl
        rw [hid]
        exact Nat.ne_of_lt hlt
      · refine List.pairwise_append.mpr ⟨h.keysDistinct, List.pairwise_singleton _ _, ?_⟩
        intro a ha b hb
        rw [List.mem_singleton.mp hb]
        exact hkeys a ha

theorem ConvInv_of_map (db1 db2 : MsgDB) (cid : ConvId) (mid : MsgId) (now : Nat)
    (u1 u2 rcv : UserId) (h : ConvInv db1)
    (hc : db2.conversations =
      db1.conversations.map (updateConvMeta cid mid now u1 u2 rcv))
    (hn : db2.nextConvId = db1.nextConvId) : ConvInv db2 := by
  constructor
  · intro c hcm
    rw [hc] at hcm
    rcases List.mem_map.mp hcm with ⟨a, ha, rfl⟩
    have hf := updateConvMeta_fields cid mid now u1 u2 rcv a
    rw [hf.1, hf.2.1]
    exact h.canon a ha
  · intro c hcm
    rw [hc] at hcm
    rcases List.mem_map.mp hcm with ⟨a, ha, rfl⟩
    have hf := updateConvMeta_fields cid mid now u1 u2 rcv a
    rw [hf.2.2.2, hn]
    exact h.idBound a ha
  · rw [hc]
    refine List.pairwise_map.mpr (h.idsDistinct.imp ?_)
    intro a b hab
    have hfa := updateConvMeta_fields cid mid now u1 u2 rcv a
    have hfb := updateConvMeta_fields cid mid now u1 u2 rcv b
    rw [hfa.2.2.2, hfb.2.2.2]
    exact hab
  · rw [hc]
    refine List.pairwise_map.mpr (h.keysDistinct.imp ?_)
    intro a b hab
    rw [updateConvMeta_key, updateConvMeta_key]
    exact hab

theorem insertMessage_conversations (db : MsgDB) (inp : MsgInput) :
    (insertMessage db inp).conversations =
      (resolveConv db (canonPair inp.sender_id inp.receiver_id).1
        (canonPair inp.sender_id inp.receiver_id).2 inp.advertisement_id).2.conversations.map
        (updateConvMeta (resolvedConv db inp).id db.nextMsgId db.now
          (canonPair inp.sender_id inp.receiver_id).1
          (canonPair inp.sender_id inp.receiver_id).2 inp.receiver_id) :=
  rfl

theorem insertMessage_nextConvId (db : MsgDB) (inp : MsgInput) :
    (insertMessage db inp).nextConvId =
      (resolveConv db (canonPair inp.sender_id inp.receiver_id).1
        (canonPair inp.sender_id inp.receiver_id).2 inp.advertisement_id).2.nextConvId :=
  rfl

theorem ConvInv_insertMessage (db : MsgDB) (inp : MsgInput) (h : ConvInv db) :
    ConvInv (insertMessage db inp) := by
  have hle := canonPair_le inp.sender_id inp.receiver_id
  have h2 := ConvInv_resolve db (canonPair inp.sender_id inp.receiver_id).1
    (canonPair inp.sender_id inp.receiver_id).2 inp.advertisement_id hle h
  exact ConvInv_of_map _ _ _ _ _ _ _ _ h2 (insertMessage_conversations db inp)
    (insertMessage_nextConvId db inp)

theorem ConvInv_foldl (msgs : List MsgInput) (db : MsgDB) (h : ConvInv db) :
    ConvInv (msgs.foldl insertMessage db) := by
  induction msgs generalizing db with
  | nil => exact h
  | cons m ms ih => exact ih _ (ConvInv_insertMessage db m h)

theorem updateConvMeta_self (mid : MsgId) (now : Nat) (u1 u2 rcv : UserId)
    (c : Conversation) :
    updateConvMeta c.id mid now u1 u2 rcv c =
      { c with
        last_message_id := some mid
        updated_at := now
        user1_unread_count :=
          if u1 == rcv then c.user1_unread_count + 1 else c.user1_unread_count
        user2_unread_count :=
          if u2 == rcv then c.user2_unread_count + 1 else c.user2_unread_count } := by
  unfold updateConvMeta
  simp

theorem updateConvMeta_other (cid : ConvId) (mid : MsgId) (now : Nat)
    (u1 u2 rcv : UserId) (c : Conversation) (h : c.id ≠ cid) :
    updateConvMeta cid mid now u1 u2 rcv c = c := by
  unfold updateConvMeta
  rw [beq_eq_false_iff_ne.mpr h]
  simp

theorem resolveConv_snd_conversations (db : MsgDB) (u1 u2 : UserId) (ad : Option AdId) :
    (resolveConv db u1 u2 ad).2.conversations = db.conversations ∨
    ((resolveConv db u1 u2 ad).2.conversations =
        db.conversations ++ [(resolveConv db u1 u2 ad).1] ∧
      (resolveConv db u1 u2 ad).1.id = db.nextConvId) := by
  unfold resolveConv
  cases lookupConv db u1 u2 ad with
  | some c => exact Or.inl rfl
  | none => exact Or.inr ⟨rfl, rfl⟩

theorem resolveConv_snd_messages (db : MsgDB) (u1 u2 : UserId) (ad : Option AdId) :
    (resolveConv db u1 u2 ad).2.messages = db.messages := by
  unfold resolveConv
  cases lookupConv db u1 u2 ad <;> rfl

theorem insertMessage_messages (db : MsgDB) (inp : MsgInput) :
    (insertMessage db inp).messages =
      db.messages ++ [(set_message_conversation db (mkNewMsg db inp)).2] := by
  show (resolveConv db (canonPair inp.sender_id inp.receiver_id).1
      (canonPair inp.sender_id inp.receiver_id).2 inp.advertisement_id).2.messages ++
      [(set_message_conversation db (mkNewMsg db inp)).2] =
    db.messages ++ [(set_message_conversation db (mkNewMsg db inp)).2]
  rw [resolveConv_snd_messages]

theorem stored_message_eq (db : MsgDB) (inp : MsgInput) :
    (set_message_conversation db (mkNewMsg db inp)).2 =
      { id := db.nextMsgId, sender_id := inp.sender_id, receiver_id := inp.receiver_id,
        conversation_id := some (resolvedConv db inp).id,
        advertisement_id := inp.advertisement_id, content := inp.content,
        is_read := false } :=
  rfl

theorem resolvedConv_fields (db : MsgDB) (inp : MsgInput) :
    (resolvedConv db inp).user1_id = (canonPair inp.sender_id inp.receiver_id).1 ∧
    (resolvedConv db inp).user2_id = (canonPair inp.sender_id inp.receiver_id).2 ∧
    (resolvedConv db inp).advertisement_id = inp.advertisement_id :=
  resolveConv_fst db _ _ _

theorem counts_of_update (mid : MsgId) (now : Nat) (u1 u2 rcv : UserId)
    (c : Conversation) :
    (updateConvMeta c.id mid now u1 u2 rcv c).user1_unread_count =
      (if u1 == rcv then c.user1_unread_count + 1 else c.user1_unread_count) ∧
    (updateConvMeta c.id mid now u1 u2 rcv c).user2_unread_count =
      (if u2 == rcv then c.user2_unread_count + 1 else c.user2_unread_count) := by
  rw [updateConvMeta_self]
  exact ⟨rfl, rfl⟩

theorem meta_of_update (mid : MsgId) (now : Nat) (u1 u2 rcv : UserId)
    (c : Conversation) :
    (updateConvMeta c.id mid now u1 u2 rcv c).last_message_id = some mid ∧
    (updateConvMeta c.id mid now u1 u2 rcv c).updated_at = now := by
  rw [updateConvMeta_self]
  exact ⟨rfl, rfl⟩

/-! ## Claim theorems -/

/-- C1: starting from the empty store, repeatedly inserting messages
between any users, in either direction and in any order, keeps at most
one conversation row per (unordered pair, advertisement): every row
stores its pair in canonical (smaller-id, larger-id) order, and two
reachable rows agreeing on the unordered pair and on the advertisement
are the same row. -/
theorem conversation_pair_unique (msgs : List MsgInput) (c₁ c₂ : Conversation)
    (h₁ : c₁ ∈ (msgs.foldl insertMessage initDB).conversations)
    (h₂ : c₂ ∈ (msgs.foldl insertMessage initDB).conversations)
    (hpair : (c₁.user1_id = c₂.user1_id ∧ c₁.user2_id = c₂.user2_id) ∨
             (c₁.user1_id = c₂.user2_id ∧ c₁.user2_id = c₂.user1_id))
    (had : c₁.advertisement_id = c₂.advertisement_id) :
    c₁ = c₂ ∧ c₁.user1_id ≤ c₁.user2_id := by
  have hinv := ConvInv_foldl msgs initDB ConvInv_initDB
  have hc1 := hinv.canon c₁ h₁
  have hc2 := hinv.canon c₂ h₂
  have hkey : convKey c₁ = convKey c₂ := by
    rcases hpair with ⟨ha, hb⟩ | ⟨ha, hb⟩
    · simp [convKey, ha, hb, had]
    · have k1 : c₂.user2_id ≤ c₂.user1_id := by
        rw [← ha, ← hb]
        exact hc1
      have heq2 : c₂.user1_id = c₂.user2_id := Nat.le_antisymm hc2 k1
      have e1 : c₁.user1_id = c₂.user1_id := by rw [ha, ← heq2]
      have e2 : c₁.user2_id = c₂.user2_id := by rw [hb, heq2]
      simp [convKey, e1, e2, had]
  refine ⟨?_, hc1⟩
  by_contra hne
  have hsym : Symmetric (fun a b : Conversation => convKey a ≠ convKey b) :=
    fun a b hab he => hab he.symm
  exact (hinv.keysDistinct.forall hsym h₁ h₂ hne) hkey

/-- C1 witness: two opposite-direction inserts between users 2 and 1
about no advertisement land in one and the same canonical row. -/
theorem conversation_pair_unique_witness :
    ∃ c₁ c₂ : Conversation,
      c₁ ∈ (([⟨2, 1, none, none, "hi"⟩, ⟨1, 2, some 5, none, "yo"⟩] :
        List MsgInput).foldl insertMessage initDB).conversations ∧
      c₂ ∈ (([⟨2, 1, none, none, "hi"⟩, ⟨1, 2, some 5, none, "yo"⟩] :
        List MsgInput).foldl insertMessage initDB).conversations ∧
      c₁ = c₂ ∧ c₁.user1_id ≤ c₁.user2_id := by
  refine ⟨(([⟨2, 1, none, none, "hi"⟩, ⟨1, 2, some 5, none, "yo"⟩] :
      List MsgInput).foldl insertMessage initDB).conversations.head (by decide),
    (([⟨2, 1, none, none, "hi"⟩, ⟨1, 2, some 5, none, "yo"⟩] :
      List MsgInput).foldl insertMessage initDB).conversations.head (by decide),
    ?_, ?_, ?_⟩
  · exact List.head_mem _
  · exact List.head_mem _
  · exact conversation_pair_unique _ _ _ (List.head_mem _) (List.head_mem _)
      (Or.inl ⟨rfl, rfl⟩) rfl

/-- C2: inserting a message from a sender to a distinct receiver
updates the resolved conversation row alone: its last_message_id
becomes the new message's id, its updated_at is refreshed, the unread
counter of the canonical slot holding the receiver grows by one while
the sender's slot is untouched, and every other conversation row is
left exactly as it was. -/
theorem message_counter_update (db : MsgDB) (inp : MsgInput)
    (hne : inp.sender_id ≠ inp.receiver_id) :
    (∃ c' ∈ (insertMessage db inp).conversations,
       c'.id = (resolvedConv db inp).id ∧
       c'.last_message_id = some db.nextMsgId ∧
       c'.updated_at = db.now ∧
       (((resolvedConv db inp).user1_id = inp.receiver_id ∧
         (resolvedConv db inp).user2_id = inp.sender_id ∧
         c'.user1_unread_count = (resolvedConv db inp).user1_unread_count + 1 ∧
         c'.user2_unread_count = (resolvedConv db inp).user2_unread_count) ∨
        ((resolvedConv db inp).user2_id = inp.receiver_id ∧
         (resolvedConv db inp).user1_id = inp.sender_id ∧
         c'.user2_unread_count = (resolvedConv db inp).user2_unread_count + 1 ∧
         c'.user1_unread_count = (resolvedConv db inp).user1_unread_count))) ∧
    (∀ d ∈ (insertMessage db inp).conversations, d.id ≠ (resolvedConv db inp).id →
       d ∈ db.conversations) ∧
    (∃ m ∈ (insertMessage db inp).messages,
       m.id = db.nextMsgId ∧ m.conversation_id = some (resolvedConv db inp).id) := by
  refine ⟨⟨updateConvMeta (resolvedConv db inp).id db.nextMsgId db.now
      (canonPair inp.sender_id inp.receiver_id).1
      (canonPair inp.sender_id inp.receiver_id).2 inp.receiver_id (resolvedConv db inp),
      ?_, ?_, ?_, ?_, ?_⟩, ?_, ?_⟩
  · rw [insertMessage_conversations db inp]
    exact List.mem_map_of_mem _
      (resolveConv_mem db (canonPair inp.sender_id inp.receiver_id).1
        (canonPair inp.sender_id inp.receiver_id).2 inp.advertisement_id)
  · exact (updateConvMeta_fields _ _ _ _ _ _ _).2.2.2
  · exact (meta_of_update _ _ _ _ _ _).1
  · exact (meta_of_update _ _ _ _ _ _).2
  · have hfst := resolvedConv_fields db inp
    have hcnt := counts_of_update db.nextMsgId db.now
      (canonPair inp.sender_id inp.receiver_id).1
      (canonPair inp.sender_id inp.receiver_id).2 inp.receiver_id (resolvedConv db inp)
    obtain ⟨ha, hb⟩ | ⟨ha, hb⟩ := canonPair_cases inp.sender_id inp.receiver_id
    · refine Or.inr ⟨?_, ?_, ?_, ?_⟩
      · rw [hfst.2.1, hb]
      · rw [hfst.1, ha]
      · rw [hcnt.2, hb, beq_self_eq_true, if_pos rfl]
      · rw [hcnt.1, ha, beq_eq_false_iff_ne.mpr hne]
        simp
    · refine Or.inl ⟨?_, ?_, ?_, ?_⟩
      · rw [hfst.1, ha]
      · rw [hfst.2.1, hb]
      · rw [hcnt.1, ha, beq_self_eq_true, if_pos rfl]
      · rw [hcnt.2, hb, beq_eq_false_iff_ne.mpr (Ne.symm (Ne.symm hne))]
        simp
  · intro d hd hdne
    rw [insertMessage_conversations db inp] at hd
    rcases List.mem_map.mp hd with ⟨x, hx, rfl⟩
    have hxid : x.id ≠ (resolvedConv db inp).id := by
      intro he
      exact hdne (by rw [(updateConvMeta_fields _ _ _ _ _ _ x).2.2.2, he])
    rw [updateConvMeta_other _ _ _ _ _ _ _ hxid]
    rcases resolveConv_snd_conversations db (canonPair inp.sender_id inp.receiver_id).1
        (canonPair inp.sender_id inp.receiver_id).2 inp.advertisement_id with
      hcs | ⟨hcs, _⟩
    · rw [hcs] at hx
      exact hx
    · rw [hcs] at hx
      rcases List.mem_append.mp hx with h1 | h1
      · exact h1
      · exact absurd (congrArg Conversation.id (List.mem_singleton.mp h1)) hxid
  · refine ⟨(set_message_conversation db (mkNewMsg db inp)).2, ?_, ?_, ?_⟩
    · rw [insertMessage_messages db inp]
      exact List.mem_append_right _ (List.mem_singleton_self _)
    · rw [stored_message_eq]
    · rw [stored_message_eq]

/-- C2 witness: user 2 messages user 1 in the empty store; the
receiver's canonical slot is the one incremented. -/
theorem message_counter_update_witness :
    (∃ c' ∈ (insertMessage initDB ⟨2, 1, none, none, "hi"⟩).conversations,
       c'.id = (resolvedConv initDB ⟨2, 1, none, none, "hi"⟩).id ∧
       c'.last_message_id = some initDB.nextMsgId ∧
       c'.updated_at = initDB.now ∧
       (((resolvedConv initDB ⟨2, 1, none, none, "hi"⟩).user1_id = 1 ∧
         (resolvedConv initDB ⟨2, 1, none, none, "hi"⟩).user2_id = 2 ∧
         c'.user1_unread_count =
           (resolvedConv initDB ⟨2, 1, none, none, "hi"⟩).user1_unread_count + 1 ∧
         c'.user2_unread_count =
           (resolvedConv initDB ⟨2, 1, none, none, "hi"⟩).user2_unread_count) ∨
        ((resolvedConv initDB ⟨2, 1, none, none, "hi"⟩).user2_id = 1 ∧
         (resolvedConv initDB ⟨2, 1, none, none, "hi"⟩).user1_id = 2 ∧
         c'.user2_unread_count =
           (resolvedConv initDB ⟨2, 1, none, none, "hi"⟩).user2_unread_count + 1 ∧
         c'.user1_unread_count =
           (resolvedConv initDB ⟨2, 1, none, none, "hi"⟩).user1_unread_count))) ∧
    (∀ d ∈ (insertMessage initDB ⟨2, 1, none, none, "hi"⟩).conversations,
       d.id ≠ (resolvedConv initDB ⟨2, 1, none, none, "hi"⟩).id →
       d ∈ initDB.conversations) ∧
    (∃ m ∈ (insertMessage initDB ⟨2, 1, none, none, "hi"⟩).messages,
       m.id = initDB.nextMsgId ∧
       m.conversation_id = some (resolvedConv initDB ⟨2, 1, none, none, "hi"⟩).id) :=
  message_counter_update initDB ⟨2, 1, none, none, "hi"⟩ (by decide)

/-- C3: marking a conversation read for a participant flips every
unread message of that conversation addressed to the participant,
leaves all other messages as they were, zeroes exactly the
participant's counter slot (user1's slot when the participant is
user1, else user2's) keeping the other slot, and leaves every other
conversation row untouched. -/
theorem mark_read_resets (db : MsgDB) (conversationId : ConvId) (uid : UserId)
    (conv : Conversation)
    (hfind : db.conversations.find? (fun c => c.id == conversationId) = some conv)
    (hpart : uid = conv.user1_id ∨ uid = conv.user2_id) :
    (∀ m ∈ (markMessagesAsRead db conversationId uid).messages,
       m.conversation_id = some conversationId → m.receiver_id = uid →
       m.is_read = true) ∧
    (∀ m ∈ db.messages,
       ¬(m.conversation_id = some conversationId ∧ m.receiver_id = uid ∧
         m.is_read = false) →
       m ∈ (markMessagesAsRead db conversationId uid).messages) ∧
    (∃ c' ∈ (markMessagesAsRead db conversationId uid).conversations,
       c'.id = conv.id ∧
       (if conv.user1_id = uid then
          c'.user1_unread_count = 0 ∧ c'.user2_unread_count = conv.user2_unread_count
        else
          c'.user2_unread_count = 0 ∧
          c'.user1_unread_count = conv.user1_unread_count)) ∧
    (∀ c ∈ db.conversations, c.id ≠ conversationId →
       c ∈ (markMessagesAsRead db conversationId uid).conversations) := by
  have hmsgs : (markMessagesAsRead db conversationId uid).messages =
      db.messages.map (fun m =>
        if m.conversation_id == some conversationId && m.receiver_id == uid &&
            m.is_read == false then { m with is_read := true } else m) := by
    unfold markMessagesAsRead
    rw [hfind]
  have hconvs : (markMessagesAsRead db conversationId uid).conversations =
      db.conversations.map (fun c =>
        if c.id == conversationId then
          if conv.user1_id == uid then { c with user1_unread_count := 0 }
          else { c with user2_unread_count := 0 }
        else c) := by
    unfold markMessagesAsRead
    rw [hfind]
  refine ⟨?_, ?_, ?_, ?_⟩
  · intro m hm h1 h2
    rw [hmsgs] at hm
    rcases List.mem_map.mp hm with ⟨x, hx, rfl⟩
    by_cases hc : (x.conversation_id == some conversationId && x.receiver_id == uid &&
        x.is_read == false) = true
    · rw [if_pos hc]
    · rw [Bool.not_eq_true] at hc
      have hcn : ¬((x.conversation_id == some conversationId && x.receiver_id == uid &&
          x.is_read == false) = true) := by
        rw [hc]
        decide
      rw [if_neg hcn] at h1 h2
      by_cases hr : x.is_read = true
      · rw [if_neg hcn]
        exact hr
      · rw [Bool.not_eq_true] at hr
        exact absurd hc (by simp [h1, h2, hr])
  · intro m hm hnot
    rw [hmsgs]
    by_cases hb : (m.conversation_id == some conversationId && m.receiver_id == uid &&
        m.is_read == false) = true
    · simp only [Bool.and_eq_true, beq_iff_eq] at hb
      exact absurd ⟨hb.1.1, hb.1.2, hb.2⟩ hnot
    · rw [Bool.not_eq_true] at hb
      refine List.mem_map.mpr ⟨m, hm, ?_⟩
      have hbn : ¬((m.conversation_id == some conversationId && m.receiver_id == uid &&
          m.is_read == false) = true) := by
        rw [hb]
        decide
      rw [if_neg hbn]
  · have hcid : conv.id = conversationId := by
      have h := List.find?_some hfind
      simpa using h
    have hmem : conv ∈ db.conversations := List.mem_of_find?_eq_some hfind
    rw [hconvs]
    by_cases huid : conv.user1_id = uid
    · refine ⟨{ conv with user1_unread_count := 0 }, ?_, rfl, ?_⟩
      · refine List.mem_map.mpr ⟨conv, hmem, ?_⟩
        simp [hcid, huid]
      · rw [if_pos huid]
        exact ⟨rfl, rfl⟩
    · refine ⟨{ conv with user2_unread_count := 0 }, ?_, rfl, ?_⟩
      · refine List.mem_map.mpr ⟨conv, hmem, ?_⟩
        simp [hcid, huid]
      · rw [if_neg huid]
        exact ⟨rfl, rfl⟩
  · intro c hcmem hcne
    rw [hconvs]
    refine List.mem_map.mpr ⟨c, hcmem, ?_⟩
    simp [beq_eq_false_iff_ne.mpr hcne]

/-- A one-conversation store used to exercise `markMessagesAsRead`. -/
def markReadDemoDB : MsgDB :=
  { conversations := [⟨0, 1, 2, none, some 0, 1, 0, 0⟩],
    messages := [⟨0, 2, 1, some 0, none, "hi", false⟩],
    nextConvId := 1, nextMsgId := 1, now := 1 }

/-- C3 witness: participant 1 (the canonical user1) marks the only
conversation read. -/
theorem mark_read_resets_witness :
    (∀ m ∈ (markMessagesAsRead markReadDemoDB 0 1).messages,
       m.conversation_id = some 0 → m.receiver_id = 1 → m.is_read = true) ∧
    (∀ m ∈ markReadDemoDB.messages,
       ¬(m.conversation_id = some 0 ∧ m.receiver_id = 1 ∧ m.is_read = false) →
       m ∈ (markMessagesAsRead markReadDemoDB 0 1).messages) ∧
    (∃ c' ∈ (markMessagesAsRead markReadDemoDB 0 1).conversations,
       c'.id = (⟨0, 1, 2, none, some 0, 1, 0, 0⟩ : Conversation).id ∧
       (if (⟨0, 1, 2, none, some 0, 1, 0, 0⟩ : Conversation).user1_id = 1 then
          c'.user1_unread_count = 0 ∧
          c'.user2_unread_count =
            (⟨0, 1, 2, none, some 0, 1, 0, 0⟩ : Conversation).user2_unread_count
        else
          c'.user2_unread_count = 0 ∧
          c'.user1_unread_count =
            (⟨0, 1, 2, none, some 0, 1, 0, 0⟩ : Conversation).user1_unread_count)) ∧
    (∀ c ∈ markReadDemoDB.conversations, c.id ≠ 0 →
       c ∈ (markMessagesAsRead markReadDemoDB 0 1).conversations) :=
  mark_read_resets markReadDemoDB 0 1 ⟨0, 1, 2, none, some 0, 1, 0, 0⟩ rfl
    (Or.inl rfl)

theorem insertAdvertisement_preserves (s : AdStore) (a : Advertisement) (s2 : AdStore)
    (hall : ∀ x ∈ s.ads, check_at_least_one_contact x = true)
    (hok : insertAdvertisement s a = Except.ok s2) :
    ∀ x ∈ s2.ads, check_at_least_one_contact x = true := by
  unfold insertAdvertisement at hok
  split at hok
  case isTrue hchk =>
    intro x hx
    simp only [Except.ok.injEq] at hok
    rw [← hok] at hx
    simp only [List.mem_append, List.mem_singleton] at hx
    rcases hx with hx | rfl
    · exact hall x hx
    · exact hchk
  case isFalse hchk =>
    exact absurd hok (by simp)

/-- C4: creating an advertisement with both contacts NULL fails with
the RPC's error and stores nothing; and the at-least-one-contact
invariant is standing: it is preserved by every successful
`create_advertisement` call and by every successful direct table
insert, so no write path can leave a contact-free row behind. -/
theorem advertisement_contact_required (s : AdStore) (uid : UserId)
    (cat sub ttl desc : String) (imgs : List String)
    (d t : Option String) (vip : Bool) (price : Option Int) (a : Advertisement)
    (hall : ∀ x ∈ s.ads, check_at_least_one_contact x = true) :
    (d = none → t = none →
      create_advertisement s uid cat sub ttl desc imgs d t vip price =
        Except.error "At least one contact (Discord or Telegram) is required") ∧
    (∀ s2 ad2, create_advertisement s uid cat sub ttl desc imgs d t vip price =
        Except.ok (s2, ad2) → ∀ x ∈ s2.ads, check_at_least_one_contact x = true) ∧
    (∀ s2, insertAdvertisement s a = Except.ok s2 →
        ∀ x ∈ s2.ads, check_at_least_one_contact x = true) := by
  refine ⟨?_, ?_, ?_⟩
  · intro hd ht
    unfold create_advertisement
    rw [hd, ht]
    rfl
  · intro s2 ad2 hok x hx
    unfold create_advertisement at hok
    split at hok
    · exact absurd hok (by simp)
    · split at hok
      case h_1 s3 heq =>
        simp only [Except.ok.injEq, Prod.mk.injEq] at hok
        rcases hok with ⟨rfl, -⟩
        exact insertAdvertisement_preserves { ads := s.ads, nextAdId := s.nextAdId + 1 }
          _ _ hall heq x hx
      case h_2 e heq =>
        exact absurd hok (by simp)
  · intro s2 hok x hx
    exact insertAdvertisement_preserves s a s2 hall hok x hx

/-- C4 witness: on an empty store, a creation with no contacts fails,
successful creations keep the invariant, and so do direct inserts. -/
theorem advertisement_contact_required_witness :
    ((none : Option String) = none → (none : Option String) = none →
      create_advertisement ⟨[], 0⟩ 1 "c" "s" "t" "d" [] none none false none =
        Except.error "At least one contact (Discord or Telegram) is required") ∧
    (∀ s2 ad2, create_advertisement ⟨[], 0⟩ 1 "c" "s" "t" "d" [] none none false none =
        Except.ok (s2, ad2) → ∀ x ∈ s2.ads, check_at_least_one_contact x = true) ∧
    (∀ s2, insertAdvertisement ⟨[], 0⟩
        ⟨0, 1, "c", "s", "t", "d", [], some "dc", none, none, false⟩ =
          Except.ok s2 →
        ∀ x ∈ s2.ads, check_at_least_one_contact x = true) :=
  advertisement_contact_required ⟨[], 0⟩ 1 "c" "s" "t" "d" [] none none false none
    ⟨0, 1, "c", "s", "t", "d", [], some "dc", none, none, false⟩ (by simp)

/-- C5: a target user whose role is "admin" is untouchable through the
admin panel's user-action path: no ban, unban or role-change button is
rendered for such a row whatever the acting user's role, so the
invocation leaves the users table unchanged. -/
theorem admin_target_protected (actorRole : String) (users : List SiteUser)
    (targetId : UserId) (action : String) (newRole : Option String) (t : SiteUser)
    (hfind : users.find? (fun u => u.id == targetId) = some t)
    (hadmin : t.role = "admin") :
    availableUserActions actorRole t = [] ∧
    panelUserAction actorRole users targetId action newRole = users := by
  have hemp : availableUserActions actorRole t = [] := by
    unfold availableUserActions
    rw [hadmin]
    simp
  refine ⟨hemp, ?_⟩
  unfold panelUserAction
  rw [hfind]
  simp [hemp]

/-- C5 witness: a moderator invoking a ban against the sole admin row
changes nothing. -/
theorem admin_target_protected_witness :
    availableUserActions "moderator" ⟨7, "root", "admin", false⟩ = [] ∧
    panelUserAction "moderator" [⟨7, "root", "admin", false⟩] 7 "ban" none =
      [⟨7, "root", "admin", false⟩] :=
  admin_target_protected "moderator" [⟨7, "root", "admin", false⟩] 7 "ban" none
    ⟨7, "root", "admin", false⟩ rfl rfl

/-- C6: the trigger's lookup condition is NULL-safe equality on the
advertisement column — it coincides with plain option equality, so a
message without an advertisement matches exactly a conversation
without one — and when no conversation matches, the newly created row
starts with both unread counters at zero. -/
theorem lookup_null_safe_and_new_counters (db : MsgDB) (c : Conversation)
    (u1 u2 : UserId) (ad : Option AdId)
    (hnone : lookupConv db u1 u2 ad = none) :
    (convMatches c u1 u2 ad =
      (c.user1_id == u1 && c.user2_id == u2 && c.advertisement_id == ad)) ∧
    ((resolveConv db u1 u2 ad).1.user1_unread_count = 0 ∧
     (resolveConv db u1 u2 ad).1.user2_unread_count = 0 ∧
     (resolveConv db u1 u2 ad).1 ∈ (resolveConv db u1 u2 ad).2.conversations) := by
  refine ⟨convMatches_eq c u1 u2 ad, ?_, ?_, resolveConv_mem db u1 u2 ad⟩
  · unfold resolveConv
    rw [hnone]
    rfl
  · unfold resolveConv
    rw [hnone]
    rfl

/-- C6 witness: on the empty store the lookup finds nothing and the
created conversation starts with zeroed counters. -/
theorem lookup_null_safe_and_new_counters_witness :
    (convMatches ⟨0, 1, 2, none, none, 0, 0, 0⟩ 1 2 none =
      ((⟨0, 1, 2, none, none, 0, 0, 0⟩ : Conversation).user1_id == 1 &&
       (⟨0, 1, 2, none, none, 0, 0, 0⟩ : Conversation).user2_id == 2 &&
       (⟨0, 1, 2, none, none, 0, 0, 0⟩ : Conversation).advertisement_id ==
         (none : Option AdId))) ∧
    ((resolveConv initDB 1 2 none).1.user1_unread_count = 0 ∧
     (resolveConv initDB 1 2 none).1.user2_unread_count = 0 ∧
     (resolveConv initDB 1 2 none).1 ∈ (resolveConv initDB 1 2 none).2.conversations) :=
  lookup_null_safe_and_new_counters initDB ⟨0, 1, 2, none, none, 0, 0, 0⟩ 1 2 none rfl

/-- C7: each mutating admin action (user ban/unban/role change,
advertisement deletion, VIP toggle) appends a log entry carrying the
actor id, the target id, the action label and the structured details,
synchronously after the mutation; and when the append fails the
failure is swallowed: the primary mutation is identical, the log is
simply left as it was, and the action still reports success. -/
theorem audit_log_best_effort (st : AdminState) (actorId targetId : UserId)
    (action : String) (newRole : Option String) (adId : AdId) (isVip : Bool) :
    ((handleUserAction st actorId targetId action newRole false).state.logs =
      st.logs ++ [{
        admin_id := some actorId
        action := action ++ (match newRole with | some r => "_to_" ++ r | none => "")
        target_user_id := some targetId
        details := LogDetails.userAction action newRole
          ((st.users.find? (fun u => u.id == targetId)).map (fun u => u.nickname)) }]) ∧
    ((handleUserAction st actorId targetId action newRole true).state.users =
      (handleUserAction st actorId targetId action newRole false).state.users) ∧
    ((handleUserAction st actorId targetId action newRole true).state.logs = st.logs) ∧
    ((handleUserAction st actorId targetId action newRole true).success = true) ∧
    ((handleDeleteAd st actorId adId false).state.logs =
      st.logs ++ [{
        admin_id := some actorId
        action := "delete_advertisement"
        target_user_id := (st.ads.find? (fun a => a.id == adId)).map (fun a => a.user_id)
        details := LogDetails.adAction adId
          ((st.ads.find? (fun a => a.id == adId)).map (fun a => a.title))
          (((st.ads.find? (fun a => a.id == adId)).bind
              (fun a => st.users.find? (fun u => u.id == a.user_id))).map
            (fun u => u.nickname)) }]) ∧
    ((handleDeleteAd st actorId adId true).state.ads =
      (handleDeleteAd st actorId adId false).state.ads) ∧
    ((handleDeleteAd st actorId adId true).state.logs = st.logs) ∧
    ((handleDeleteAd st actorId adId true).success = true) ∧
    ((handlePromoteAd st actorId adId isVip false).state.logs =
      st.logs ++ [{
        admin_id := some actorId
        action := if isVip then "demote_advertisement" else "promote_advertisement"
        target_user_id := (st.ads.find? (fun a => a.id == adId)).map (fun a => a.user_id)
        details := LogDetails.adAction adId
          ((st.ads.find? (fun a => a.id == adId)).map (fun a => a.title))
          (((st.ads.find? (fun a => a.id == adId)).bind
              (fun a => st.users.find? (fun u => u.id == a.user_id))).map
            (fun u => u.nickname)) }]) ∧
    ((handlePromoteAd st actorId adId isVip true).state.ads =
      (handlePromoteAd st actorId adId isVip false).state.ads) ∧
    ((handlePromoteAd st actorId adId isVip true).state.logs = st.logs) ∧
    ((handlePromoteAd st actorId adId isVip true).success = true) :=
  ⟨rfl, rfl, rfl, rfl, rfl, rfl, rfl, rfl, rfl, rfl, rfl, rfl⟩

/-- C9: the stored message's conversation link is decided by the
trigger alone: whatever conversation_id the caller supplies is
overwritten by the resolved conversation's id, and every message in
any reachable store carries a non-NULL conversation link. -/
theorem trigger_overrides_conversation_id (db : MsgDB) (inp : MsgInput)
    (cid cid2 : Option ConvId) (msgs : List MsgInput) :
    ((set_message_conversation db (mkNewMsg db { inp with conversation_id := cid })).2 =
      (set_message_conversation db
        (mkNewMsg db { inp with conversation_id := cid2 })).2) ∧
    ((set_message_conversation db (mkNewMsg db inp)).2.conversation_id =
      some (resolvedConv db inp).id) ∧
    (∀ m ∈ (msgs.foldl insertMessage initDB).messages, m.conversation_id.isSome = true) := by
  refine ⟨rfl, rfl, ?_⟩
  have key : ∀ (l : List MsgInput) (d : MsgDB),
      (∀ m ∈ d.messages, m.conversation_id.isSome = true) →
      ∀ m ∈ (l.foldl insertMessage d).messages, m.conversation_id.isSome = true := by
    intro l
    induction l with
    | nil => exact fun d hd => hd
    | cons a as ih =>
        intro d hd
        apply ih
        intro m hm
        rw [insertMessage_messages] at hm
        rcases List.mem_append.mp hm with h1 | h1
        · exact hd m h1
        · rw [List.mem_singleton.mp h1, stored_message_eq]
          rfl
  exact key msgs initDB (fun m hm => absurd hm (List.not_mem_nil m))

/-- C9 witness: user 1 supplies conversation_id 99 on an insert to
user 2 over the empty store; the trigger stores the same row as with
no supplied id, linked to the resolved conversation. -/
theorem trigger_overrides_conversation_id_witness :
    ((set_message_conversation initDB
        (mkNewMsg initDB { (⟨1, 2, none, none, "m"⟩ : MsgInput) with
          conversation_id := some 99 })).2 =
      (set_message_conversation initDB
        (mkNewMsg initDB { (⟨1, 2, none, none, "m"⟩ : MsgInput) with
          conversation_id := none })).2) ∧
    ((set_message_conversation initDB (mkNewMsg initDB ⟨1, 2, none, none, "m"⟩)).2.conversation_id =
      some (resolvedConv initDB ⟨1, 2, none, none, "m"⟩).id) ∧
    (∀ m ∈ (([⟨1, 2, some 99, none, "m"⟩] : List MsgInput).foldl insertMessage
        initDB).messages, m.conversation_id.isSome = true) :=
  trigger_overrides_conversation_id initDB ⟨1, 2, none, none, "m"⟩ (some 99) none
    [⟨1, 2, some 99, none, "m"⟩]

/-- C8: admin-panel entry is granted exactly to the roles "moderator"
and "admin"; the audit log is fetched only for an "admin"; a
role-change action is offered only when the acting role is "admin";
hence a moderator enters the panel but gets neither the audit log nor
any role-assignment action. -/
theorem role_gate (u t : SiteUser) (actorRole : String) (nr : Option String) :
    (adminPanelAccess u = true ↔ (u.role = "admin" ∨ u.role = "moderator")) ∧
    (fetchesAdminLogs u = true ↔ u.role = "admin") ∧
    (("role", nr) ∈ availableUserActions actorRole t → actorRole = "admin") ∧
    (u.role = "moderator" →
      adminPanelAccess u = true ∧ fetchesAdminLogs u = false ∧
      ("role", nr) ∉ availableUserActions "moderator" t) := by
  have hrole : ∀ r : String, ("role", nr) ∈ availableUserActions r t → r = "admin" := by
    intro r hmem
    by_contra ha
    unfold availableUserActions at hmem
    rw [beq_eq_false_iff_ne.mpr ha, Bool.false_and] at hmem
    simp only [Bool.false_eq_true, if_false, List.nil_append] at hmem
    by_cases hb : t.role != "admin"
    · rw [if_pos hb] at hmem
      rw [List.mem_singleton] at hmem
      rcases Bool.eq_false_or_eq_true t.is_banned with hbn | hbn <;>
        rw [hbn] at hmem <;> simp at hmem
    · rw [if_neg hb] at hmem
      exact absurd hmem (List.not_mem_nil _)
  refine ⟨?_, ?_, hrole actorRole, ?_⟩
  · unfold adminPanelAccess hasPermission
    simp
  · unfold fetchesAdminLogs
    simp
  · intro hm
    refine ⟨?_, ?_, ?_⟩
    · unfold adminPanelAccess hasPermission
      simp [hm]
    · unfold fetchesAdminLogs
      rw [hm]
      rfl
    · intro hmem
      exact absurd (hrole "moderator" hmem) (by decide)

/-- C8 witness: a moderator and an admin at a concrete non-admin
target row. -/
theorem role_gate_witness :
    ((adminPanelAccess ⟨3, "mod", "moderator", false⟩ = true ↔
      ((⟨3, "mod", "moderator", false⟩ : SiteUser).role = "admin" ∨
       (⟨3, "mod", "moderator", false⟩ : SiteUser).role = "moderator")) ∧
     (fetchesAdminLogs ⟨3, "mod", "moderator", false⟩ = true ↔
      (⟨3, "mod", "moderator", false⟩ : SiteUser).role = "admin") ∧
     (("role", some "vip") ∈
        availableUserActions "moderator" ⟨4, "bob", "user", false⟩ →
      "moderator" = "admin") ∧
     ((⟨3, "mod", "moderator", false⟩ : SiteUser).role = "moderator" →
      adminPanelAccess ⟨3, "mod", "moderator", false⟩ = true ∧
      fetchesAdminLogs ⟨3, "mod", "moderator", false⟩ = false ∧
      ("role", some "vip") ∉
        availableUserActions "moderator" ⟨4, "bob", "user", false⟩)) ∧
    adminPanelAccess ⟨3, "mod", "moderator", false⟩ = true ∧
    fetchesAdminLogs ⟨3, "mod", "moderator", false⟩ = false :=
  ⟨role_gate ⟨3, "mod", "moderator", false⟩ ⟨4, "bob", "user", false⟩ "moderator"
      (some "vip"),
    ((role_gate ⟨3, "mod", "moderator", false⟩ ⟨4, "bob", "user", false⟩ "moderator"
      (some "vip")).2.2.2 rfl).1,
    ((role_gate ⟨3, "mod", "moderator", false⟩ ⟨4, "bob", "user", false⟩ "moderator"
      (some "vip")).2.2.2 rfl).2.1⟩

theorem set_message_conversation_messages (db : MsgDB) (m : Message) :
    (set_message_conversation db m).1.messages = db.messages :=
  resolveConv_snd_messages db _ _ _

/-- C10: startConversation reuses an existing conversation whenever
the loaded list holds any conversation with the recipient — whatever
advertisement it is scoped to — selecting it and sending nothing;
only when the list holds none does it insert the fixed greeting
message carrying the given advertisement, whose resolved conversation
is the one for (canonical pair, advertisement). -/
theorem start_conversation_reuse_or_greet (convs : List Conversation) (db : MsgDB)
    (uid rid : UserId) (aid : Option AdId) :
    ((∃ c ∈ convs, (c.user1_id = uid ∧ c.user2_id = rid) ∨
        (c.user2_id = uid ∧ c.user1_id = rid)) →
      (startConversation convs db uid rid aid).1 = db ∧
      ∃ c0 ∈ convs, (startConversation convs db uid rid aid).2 = some c0.id ∧
        ((c0.user1_id = uid ∧ c0.user2_id = rid) ∨
         (c0.user2_id = uid ∧ c0.user1_id = rid))) ∧
    ((∀ c ∈ convs, ¬((c.user1_id = uid ∧ c.user2_id = rid) ∨
        (c.user2_id = uid ∧ c.user1_id = rid))) →
      ∃ m, (startConversation convs db uid rid aid).1.messages = db.messages ++ [m] ∧
        m.sender_id = uid ∧ m.receiver_id = rid ∧ m.advertisement_id = aid ∧
        m.content = greetingMessage ∧
        ∃ c2 ∈ (startConversation convs db uid rid aid).1.conversations,
          m.conversation_id = some c2.id ∧
          (startConversation convs db uid rid aid).2 = some c2.id ∧
          c2.advertisement_id = aid ∧
          ((c2.user1_id = uid ∧ c2.user2_id = rid) ∨
           (c2.user1_id = rid ∧ c2.user2_id = uid))) := by
  have hbp : ∀ c : Conversation,
      ((c.user1_id == uid && c.user2_id == rid) ||
       (c.user2_id == uid && c.user1_id == rid)) = true ↔
      ((c.user1_id = uid ∧ c.user2_id = rid) ∨
       (c.user2_id = uid ∧ c.user1_id = rid)) := by
    intro c
    simp [Bool.or_eq_true, Bool.and_eq_true]
  constructor
  · rintro ⟨c, hc, hcp⟩
    cases hfind : convs.find? (fun c =>
        (c.user1_id == uid && c.user2_id == rid) ||
        (c.user2_id == uid && c.user1_id == rid)) with
    | none =>
        exact absurd ((hbp c).mpr hcp) (List.find?_eq_none.mp hfind c hc)
    | some c0 =>
        have hres : startConversation convs db uid rid aid = (db, some c0.id) := by
          unfold startConversation
          rw [hfind]
        rw [hres]
        have hp := List.find?_some hfind
        exact ⟨rfl, c0, List.mem_of_find?_eq_some hfind, rfl, (hbp c0).mp hp⟩
  · intro hall
    have hfind : convs.find? (fun c =>
        (c.user1_id == uid && c.user2_id == rid) ||
        (c.user2_id == uid && c.user1_id == rid)) = none :=
      List.find?_eq_none.mpr (fun c hc hp => hall c hc ((hbp c).mp hp))
    have hres : startConversation convs db uid rid aid =
        ({ (set_message_conversation db
              (mkNewMsg db ⟨uid, rid, none, aid, greetingMessage⟩)).1 with
            messages := (set_message_conversation db
                (mkNewMsg db ⟨uid, rid, none, aid, greetingMessage⟩)).1.messages ++
              [(set_message_conversation db
                  (mkNewMsg db ⟨uid, rid, none, aid, greetingMessage⟩)).2],
            nextMsgId := db.nextMsgId + 1, now := db.now + 1 },
          (set_message_conversation db
            (mkNewMsg db ⟨uid, rid, none, aid, greetingMessage⟩)).2.conversation_id) := by
      unfold startConversation
      rw [hfind]
    refine ⟨(set_message_conversation db
        (mkNewMsg db ⟨uid, rid, none, aid, greetingMessage⟩)).2, ?_, rfl, rfl, rfl, rfl,
      updateConvMeta (resolvedConv db ⟨uid, rid, none, aid, greetingMessage⟩).id
        db.nextMsgId db.now (canonPair uid rid).1 (canonPair uid rid).2 rid
        (resolvedConv db ⟨uid, rid, none, aid, greetingMessage⟩), ?_, ?_, ?_, ?_, ?_⟩
    · rw [hres]
      show (set_message_conversation db
          (mkNewMsg db ⟨uid, rid, none, aid, greetingMessage⟩)).1.messages ++
        [(set_message_conversation db
            (mkNewMsg db ⟨uid, rid, none, aid, greetingMessage⟩)).2] =
        db.messages ++ [(set_message_conversation db
          (mkNewMsg db ⟨uid, rid, none, aid, greetingMessage⟩)).2]
      rw [set_message_conversation_messages]
    · rw [hres]
      show updateConvMeta _ _ _ _ _ _
          (resolvedConv db ⟨uid, rid, none, aid, greetingMessage⟩) ∈
        (resolveConv db (canonPair uid rid).1 (canonPair uid rid).2
          aid).2.conversations.map
          (updateConvMeta (resolvedConv db ⟨uid, rid, none, aid, greetingMessage⟩).id
            db.nextMsgId db.now (canonPair uid rid).1 (canonPair uid rid).2 rid)
      exact List.mem_map_of_mem _
        (resolveConv_mem db (canonPair uid rid).1 (canonPair uid rid).2 aid)
    · rw [stored_message_eq,
        (updateConvMeta_fields _ _ _ _ _ _ _).2.2.2]
    · rw [hres, (updateConvMeta_fields _ _ _ _ _ _ _).2.2.2]
      rfl
    · rw [(updateConvMeta_fields _ _ _ _ _ _ _).2.2.1]
      exact (resolvedConv_fields db ⟨uid, rid, none, aid, greetingMessage⟩).2.2
    · rw [(updateConvMeta_fields _ _ _ _ _ _ _).1,
        (updateConvMeta_fields _ _ _ _ _ _ _).2.1]
      have hf := resolvedConv_fields db ⟨uid, rid, none, aid, greetingMessage⟩
      rw [hf.1, hf.2.1]
      exact canonPair_cases uid rid

/-- C10 witness: over an empty loaded list and the empty store, the
greeting is sent and lands in a conversation scoped to the given
advertisement; over a list holding the pair, that conversation is
reused. -/
theorem start_conversation_reuse_or_greet_witness :
    ((∀ c ∈ ([] : List Conversation), ¬((c.user1_id = 1 ∧ c.user2_id = 2) ∨
        (c.user2_id = 1 ∧ c.user1_id = 2))) →
      ∃ m, (startConversation [] initDB 1 2 (some 7)).1.messages =
          initDB.messages ++ [m] ∧
        m.sender_id = 1 ∧ m.receiver_id = 2 ∧ m.advertisement_id = some 7 ∧
        m.content = greetingMessage ∧
        ∃ c2 ∈ (startConversation [] initDB 1 2 (some 7)).1.conversations,
          m.conversation_id = some c2.id ∧
          (startConversation [] initDB 1 2 (some 7)).2 = some c2.id ∧
          c2.advertisement_id = some 7 ∧
          ((c2.user1_id = 1 ∧ c2.user2_id = 2) ∨
           (c2.user1_id = 2 ∧ c2.user2_id = 1))) ∧
    ((∃ c ∈ [(⟨0, 1, 2, some 9, none, 0, 0, 0⟩ : Conversation)],
        (c.user1_id = 1 ∧ c.user2_id = 2) ∨ (c.user2_id = 1 ∧ c.user1_id = 2)) →
      (startConversation [⟨0, 1, 2, some 9, none, 0, 0, 0⟩] initDB 1 2 none).1 =
        initDB ∧
      ∃ c0 ∈ [(⟨0, 1, 2, some 9, none, 0, 0, 0⟩ : Conversation)],
        (startConversation [⟨0, 1, 2, some 9, none, 0, 0, 0⟩] initDB 1 2 none).2 =
          some c0.id ∧
        ((c0.user1_id = 1 ∧ c0.user2_id = 2) ∨
         (c0.user2_id = 1 ∧ c0.user1_id = 2))) :=
  ⟨(start_conversation_reuse_or_greet [] initDB 1 2 (some 7)).2,
   (start_conversation_reuse_or_greet [⟨0, 1, 2, some 9, none, 0, 0, 0⟩]
     initDB 1 2 none).1⟩

end Site
